import Mathlib

/-!
Shallow embedding of the Habit-Architect study-sprint application
(FastAPI + SQLAlchemy, files `app/models/__init__.py`,
`app/schemas/__init__.py`, `app/routes/sprints.py`, `app/routes/ui.py`,
`app/routes/demo.py`, `app/services/errors.py`).

Modelling conventions:
- timestamps (`datetime`) are opaque integers (`DateTime := Int`);
- database integer columns are `Int`, primary keys are `Nat`;
- SQL `NULL` is `Option`;
- the store (three tables) is a triple of lists; a handler is a function
  `args → Store → Except ApiError α × Store`, the returned store being the
  state after commit (on an error raised before any write the input store
  is returned unchanged, matching the rollback-on-error semantics);
- primary keys are assigned as `max existing id + 1` (SQLite rowid rule
  for `INTEGER PRIMARY KEY` columns);
- SQL aggregates over a sprint's sessions are computed directly over the
  list of that sprint's sessions: `COUNT` is `length`, `SUM` of a nullable
  column sums the present values and is `NULL` when none is present,
  `AVG` averages the present values as a rational and is `NULL` when none
  is present; the grouped-subquery outer joins of `list_sprint_overview`
  reduce to exactly these per-sprint aggregates.
-/

/-- Timestamps are opaque; only equality and defaulting matter to the claims. -/
abbrev DateTime := Int

/-- Lifecycle states for a sprint (`SprintStatus` in `app/models`). -/
inductive SprintStatus where
  | planned
  | active
  | completed
  | cancelled
deriving DecidableEq, Repr, Inhabited

/-- Execution status for study sessions (`SessionStatus` in `app/models`). -/
inductive SessionStatus where
  | planned
  | done
  | skipped
deriving DecidableEq, Repr, Inhabited

/-- Canonical API error identifiers (`ErrorCode` in `app/services/errors.py`). -/
inductive ErrorCode where
  | SPRINT_NOT_FOUND
  | HABIT_NOT_FOUND
  | SESSION_NOT_FOUND
  | SPRINT_ID_MISMATCH
  | UNEXPECTED_ERROR
deriving DecidableEq, Repr, Inhabited

/-- An error as built by `build_error`: machine-readable code plus HTTP status.
The human message and structured details are presentation and not modelled. -/
structure ApiError where
  code : ErrorCode
  httpStatus : Nat
deriving DecidableEq, Repr, Inhabited

/-- The `sprints` table row (`Sprint` in `app/models`). `created_at` and
`updated_at` play no role in any claim and are omitted. -/
structure Sprint where
  id : Nat
  title : String
  goal_text : String
  start_date : Int
  end_date : Int
  status : SprintStatus
deriving DecidableEq, Repr, Inhabited

/-- The `habits` table row (`Habit` in `app/models`). -/
structure Habit where
  id : Nat
  sprint_id : Nat
  name : String
  description : Option String
  target_sessions_per_day : Int
deriving DecidableEq, Repr, Inhabited

/-- The `sessions` table row (`Session` in `app/models`). -/
structure Session where
  id : Nat
  sprint_id : Nat
  habit_id : Option Nat
  planned_start : DateTime
  planned_duration_min : Int
  actual_start : Option DateTime
  actual_duration_min : Option Int
  status : SessionStatus
  notes : Option String
  difficulty : Option Int
  mood : Option Int
deriving DecidableEq, Repr, Inhabited

/-- The whole relational store: the three tables. -/
structure Store where
  sprints : List Sprint
  habits : List Habit
  sessions : List Session
deriving DecidableEq, Repr, Inhabited

/-- The empty store (freshly initialised database). -/
def emptyStore : Store := ⟨[], [], []⟩

/-- Payload for creating a sprint (`SprintCreate` in `app/schemas`). -/
structure SprintCreate where
  title : String
  goal_text : String
  start_date : Int
  end_date : Int
  status : SprintStatus
deriving DecidableEq, Repr, Inhabited

/-- Payload for creating a habit (`HabitCreate` in `app/schemas`): carries its
own `sprint_id`, checked against the path parameter by the handler. -/
structure HabitCreate where
  sprint_id : Nat
  name : String
  description : Option String
  target_sessions_per_day : Int
deriving DecidableEq, Repr, Inhabited

/-- Payload for scheduling a session (`SessionCreate` in `app/schemas`). -/
structure SessionCreate where
  sprint_id : Nat
  habit_id : Option Nat
  planned_start : DateTime
  planned_duration_min : Int
  actual_start : Option DateTime
  actual_duration_min : Option Int
  status : SessionStatus
  notes : Option String
  difficulty : Option Int
  mood : Option Int
deriving DecidableEq, Repr, Inhabited

/-- Payload of `PATCH /sessions/{id}/complete` (`SessionCompleteRequest`):
`actual_start` and `actual_duration_min` are REQUIRED (non-optional) fields,
`notes`, `difficulty` and `mood` are optional. -/
structure SessionCompleteRequest where
  actual_start : DateTime
  actual_duration_min : Int
  notes : Option String
  difficulty : Option Int
  mood : Option Int
deriving DecidableEq, Repr, Inhabited

/-- Payload of `PATCH /sessions/{id}/skip` (`SessionSkipRequest`). -/
structure SessionSkipRequest where
  notes : Option String
deriving DecidableEq, Repr, Inhabited

/-- Primary-key lookup `db.get(Sprint, id)`. -/
def findSprint (st : Store) (sid : Nat) : Option Sprint :=
  st.sprints.find? (fun sp => sp.id == sid)

/-- Primary-key lookup `db.get(Habit, id)`. -/
def findHabit (st : Store) (hid : Nat) : Option Habit :=
  st.habits.find? (fun h => h.id == hid)

/-- Primary-key lookup `db.get(Session, id)`. -/
def findSession (st : Store) (sid : Nat) : Option Session :=
  st.sessions.find? (fun s => s.id == sid)

/-- Fresh primary key: one more than the largest id in use (SQLite rowid
assignment for an `INTEGER PRIMARY KEY` column). -/
def freshId (ids : List Nat) : Nat :=
  ids.foldr max 0 + 1

/-- Fresh sprint id for an insert into `sprints`. -/
def freshSprintId (st : Store) : Nat := freshId (st.sprints.map (fun sp => sp.id))

/-- Fresh habit id for an insert into `habits`. -/
def freshHabitId (st : Store) : Nat := freshId (st.habits.map (fun h => h.id))

/-- Fresh session id for an insert into `sessions`. -/
def freshSessionId (st : Store) : Nat := freshId (st.sessions.map (fun s => s.id))

/-- The sessions of one sprint (`WHERE sessions.sprint_id = :sid`). -/
def sessionsOfSprint (st : Store) (sid : Nat) : List Session :=
  st.sessions.filter (fun s => s.sprint_id == sid)

/-- The habits of one sprint (`WHERE habits.sprint_id = :sid`). -/
def habitsOfSprint (st : Store) (sid : Nat) : List Habit :=
  st.habits.filter (fun h => h.sprint_id == sid)

/-- The SQL aggregate `SUM(CASE WHEN status = done THEN 1 ELSE 0 END)`,
coalesced to 0: the number of done sessions. -/
def doneCount (ss : List Session) : Nat :=
  (ss.filter (fun s => s.status == SessionStatus.done)).length

/-- The SQL aggregate `SUM(CASE WHEN status = skipped THEN 1 ELSE 0 END)`,
coalesced to 0: the number of skipped sessions. -/
def skippedCount (ss : List Session) : Nat :=
  (ss.filter (fun s => s.status == SessionStatus.skipped)).length

/-- The SQL aggregate `SUM(planned_duration_min)` coalesced to 0. -/
def plannedSum (ss : List Session) : Int :=
  (ss.map (fun s => s.planned_duration_min)).sum

/-- The non-NULL `actual_duration_min` values of a session list; SQL `SUM`
and the overview's NULL test both range over exactly these. -/
def actualValues (ss : List Session) : List Int :=
  ss.filterMap (fun s => s.actual_duration_min)

/-- The SQL aggregate `SUM(actual_duration_min)`: NULL when no session has an
actual duration recorded, otherwise the sum of the recorded ones. -/
def actualSum (ss : List Session) : Option Int :=
  if actualValues ss = [] then none else some (actualValues ss).sum

/-- The values that feed `AVG(CASE WHEN status = done THEN difficulty END)`:
the CASE yields NULL for non-done sessions and for done sessions without a
difficulty, and SQL AVG ignores NULLs. -/
def doneDifficulties (ss : List Session) : List Int :=
  ss.filterMap (fun s => if s.status == SessionStatus.done then s.difficulty else none)

/-- The values that feed `AVG(CASE WHEN status = done THEN mood END)`. -/
def doneMoods (ss : List Session) : List Int :=
  ss.filterMap (fun s => if s.status == SessionStatus.done then s.mood else none)

/-- Average of a list of integers as SQL AVG computes it: NULL on an empty
list, otherwise the exact rational mean. -/
def avgInt (xs : List Int) : Option ℚ :=
  if xs = [] then none else some ((xs.sum : ℚ) / (xs.length : ℚ))

/-- `avg_difficulty` of `sprint_stats`: average difficulty over done sessions
that have one, NULL when there is none. -/
def avgDifficulty (ss : List Session) : Option ℚ :=
  avgInt (doneDifficulties ss)

/-- `avg_mood` of `sprint_stats`: average mood over done sessions that have
one, NULL when there is none. -/
def avgMood (ss : List Session) : Option ℚ :=
  avgInt (doneMoods ss)

/-- The dictionary returned by `GET /sprints/{id}/stats` (`sprint_stats`). -/
structure SprintStatsResult where
  sprint_id : Nat
  total_sessions : Nat
  done_sessions : Nat
  skipped_sessions : Nat
  completion_rate : ℚ
  total_planned_minutes : Int
  total_actual_minutes : Int
  avg_difficulty : Option ℚ
  avg_mood : Option ℚ
deriving DecidableEq, Repr, Inhabited

/-- The 404 error raised by `_get_sprint_or_404`. -/
def sprintNotFound : ApiError := ⟨ErrorCode.SPRINT_NOT_FOUND, 404⟩

/-- The 404 error raised by `_get_session_or_404`. -/
def sessionNotFound : ApiError := ⟨ErrorCode.SESSION_NOT_FOUND, 404⟩

/-- The 400 error raised on a path/body sprint-id mismatch. -/
def sprintIdMismatch : ApiError := ⟨ErrorCode.SPRINT_ID_MISMATCH, 400⟩

/-- Handler `sprint_stats` (`GET /sprints/{id}/stats`, `app/routes/sprints.py`
lines 399-464): 404 for an unknown sprint; otherwise one aggregate row over
the sprint's sessions, every count/sum coalesced to 0, the averages left
NULL-able, and `completion_rate = done/total if total_sessions else 0`. -/
def sprintStats (sprint_id : Nat) (st : Store) : Except ApiError SprintStatsResult :=
  match findSprint st sprint_id with
  | none => Except.error sprintNotFound
  | some _ =>
    let ss := sessionsOfSprint st sprint_id
    let total := ss.length
    let done := doneCount ss
    Except.ok
      { sprint_id := sprint_id
        total_sessions := total
        done_sessions := done
        skipped_sessions := skippedCount ss
        completion_rate := if total ≠ 0 then (done : ℚ) / (total : ℚ) else 0
        total_planned_minutes := plannedSum ss
        total_actual_minutes := (actualSum ss).getD 0
        avg_difficulty := avgDifficulty ss
        avg_mood := avgMood ss }

/-- One element of the `GET /sprints/overview` response (`SprintOverview` in
`app/schemas`; the selected `start_date`/`end_date` columns are dropped by
the schema and omitted here). -/
structure SprintOverviewRow where
  sprint_id : Nat
  title : String
  status : SprintStatus
  habits_count : Nat
  sessions_count : Nat
  done_sessions : Nat
  completion_rate : Option ℚ
  total_planned_minutes : Int
  total_actual_minutes : Option Int
deriving DecidableEq, Repr, Inhabited

/-- The overview row of one sprint, as produced by the outer joins of
`list_sprint_overview`: grouped per-sprint aggregates coalesced to 0 except
`total_actual_minutes` (left NULL-able), and
`completion_rate = done/count if sessions_count else None`. -/
def overviewRow (st : Store) (sp : Sprint) : SprintOverviewRow :=
  let ss := sessionsOfSprint st sp.id
  let cnt := ss.length
  let done := doneCount ss
  { sprint_id := sp.id
    title := sp.title
    status := sp.status
    habits_count := (habitsOfSprint st sp.id).length
    sessions_count := cnt
    done_sessions := done
    completion_rate := if cnt ≠ 0 then some ((done : ℚ) / (cnt : ℚ)) else none
    total_planned_minutes := plannedSum ss
    total_actual_minutes := actualSum ss }

/-- Handler `list_sprint_overview` (`GET /sprints/overview`,
`app/routes/sprints.py` lines 93-174): every sprint appears (outer join),
ordered by sprint id ascending. -/
def listSprintOverview (st : Store) : List SprintOverviewRow :=
  (st.sprints.mergeSort (fun a b => decide (a.id ≤ b.id))).map (overviewRow st)

/-- Record insertion: `db.add` followed by commit appends the row. -/
def insertSprint (st : Store) (sp : Sprint) : Store :=
  { st with sprints := st.sprints ++ [sp] }

/-- Append a habit row. -/
def insertHabit (st : Store) (h : Habit) : Store :=
  { st with habits := st.habits ++ [h] }

/-- Append a session row. -/
def insertSession (st : Store) (s : Session) : Store :=
  { st with sessions := st.sessions ++ [s] }

/-- ORM in-place mutation of the session with primary key `sid` followed by
commit: rewrite that row, leave every other row untouched. -/
def updateSessionById (st : Store) (sid : Nat) (f : Session → Session) : Store :=
  { st with sessions := st.sessions.map (fun t => if t.id == sid then f t else t) }

/-- Likewise for a sprint row. -/
def updateSprintById (st : Store) (sid : Nat) (f : Sprint → Sprint) : Store :=
  { st with sprints := st.sprints.map (fun t => if t.id == sid then f t else t) }

/-- Handler `create_sprint` (`POST /sprints`): unconditionally inserts. -/
def createSprint (payload : SprintCreate) (st : Store) : Except ApiError Sprint × Store :=
  let sp : Sprint :=
    { id := freshSprintId st
      title := payload.title
      goal_text := payload.goal_text
      start_date := payload.start_date
      end_date := payload.end_date
      status := payload.status }
  (Except.ok sp, insertSprint st sp)

/-- Handler `update_sprint_status` (`PATCH /sprints/{id}/status`): 404 when
the sprint does not exist, otherwise overwrite its status. -/
def updateSprintStatus (sprint_id : Nat) (newStatus : SprintStatus) (st : Store) :
    Except ApiError Sprint × Store :=
  match findSprint st sprint_id with
  | none => (Except.error sprintNotFound, st)
  | some sp =>
    (Except.ok { sp with status := newStatus },
     updateSprintById st sprint_id (fun t => { t with status := newStatus }))

/-- Handler `create_habit` (`POST /sprints/{id}/habits`, `app/routes/sprints.py`
lines 241-260): 404 when the path sprint does not exist; then 400
SPRINT_ID_MISMATCH when the body sprint id differs from the path one, raised
before any write; otherwise insert. -/
def createHabit (sprint_id : Nat) (payload : HabitCreate) (st : Store) :
    Except ApiError Habit × Store :=
  match findSprint st sprint_id with
  | none => (Except.error sprintNotFound, st)
  | some _ =>
    if payload.sprint_id ≠ sprint_id then
      (Except.error sprintIdMismatch, st)
    else
      let h : Habit :=
        { id := freshHabitId st
          sprint_id := payload.sprint_id
          name := payload.name
          description := payload.description
          target_sessions_per_day := payload.target_sessions_per_day }
      (Except.ok h, insertHabit st h)

/-- Handler `create_session` (`POST /sprints/{id}/sessions`,
`app/routes/sprints.py` lines 304-323): 404 when the path sprint does not
exist; then 400 SPRINT_ID_MISMATCH when the body sprint id differs; otherwise
insert the payload as a row. NOTE: this handler performs no check that a
supplied `habit_id` references a habit of the same sprint. -/
def createSession (sprint_id : Nat) (payload : SessionCreate) (st : Store) :
    Except ApiError Session × Store :=
  match findSprint st sprint_id with
  | none => (Except.error sprintNotFound, st)
  | some _ =>
    if payload.sprint_id ≠ sprint_id then
      (Except.error sprintIdMismatch, st)
    else
      let s : Session :=
        { id := freshSessionId st
          sprint_id := payload.sprint_id
          habit_id := payload.habit_id
          planned_start := payload.planned_start
          planned_duration_min := payload.planned_duration_min
          actual_start := payload.actual_start
          actual_duration_min := payload.actual_duration_min
          status := payload.status
          notes := payload.notes
          difficulty := payload.difficulty
          mood := payload.mood }
      (Except.ok s, insertSession st s)

/-- The field rewrite applied by `complete_session`: status becomes done and
`actual_start`, `actual_duration_min`, `notes`, `difficulty`, `mood` are all
overwritten with the payload values (the two actuals are required fields). -/
def completeUpdate (p : SessionCompleteRequest) (t : Session) : Session :=
  { t with
    status := SessionStatus.done
    actual_start := some p.actual_start
    actual_duration_min := some p.actual_duration_min
    notes := p.notes
    difficulty := p.difficulty
    mood := p.mood }

/-- Handler `complete_session` (`PATCH /sessions/{id}/complete`,
`app/routes/sprints.py` lines 339-355). -/
def completeSession (session_id : Nat) (p : SessionCompleteRequest) (st : Store) :
    Except ApiError Session × Store :=
  match findSession st session_id with
  | none => (Except.error sessionNotFound, st)
  | some s =>
    (Except.ok (completeUpdate p s), updateSessionById st session_id (completeUpdate p))

/-- The field rewrite applied by `skip_session`: status becomes skipped and
notes are overwritten only when a payload with non-null notes was sent. -/
def skipUpdate (p : Option SessionSkipRequest) (t : Session) : Session :=
  match p with
  | some q =>
    match q.notes with
    | some n => { t with status := SessionStatus.skipped, notes := some n }
    | none => { t with status := SessionStatus.skipped }
  | none => { t with status := SessionStatus.skipped }

/-- Handler `skip_session` (`PATCH /sessions/{id}/skip`,
`app/routes/sprints.py` lines 371-384); the payload is optional. -/
def skipSession (session_id : Nat) (p : Option SessionSkipRequest) (st : Store) :
    Except ApiError Session × Store :=
  match findSession st session_id with
  | none => (Except.error sessionNotFound, st)
  | some s =>
    (Except.ok (skipUpdate p s), updateSessionById st session_id (skipUpdate p))

/-- A UI handler outcome: the flash message of the error redirect, or unit on
the success redirect. -/
abbrev UiResult := Except String Unit

/-- Handler `create_sprint_ui` (`POST /ui/sprints`): inserts with status
forced to planned. -/
def createSprintUi (title goal_text : String) (start_date end_date : Int) (st : Store) :
    UiResult × Store :=
  let sp : Sprint :=
    { id := freshSprintId st
      title := title
      goal_text := goal_text
      start_date := start_date
      end_date := end_date
      status := SprintStatus.planned }
  (Except.ok (), insertSprint st sp)

/-- Handler `create_habit_ui` (`POST /ui/sprints/{id}/habits`): error redirect
when the sprint is missing, the trimmed name is empty or the target is not
positive; otherwise insert the trimmed fields. -/
def createHabitUi (sprint_id : Nat) (name : String) (description : Option String)
    (target_sessions_per_day : Int) (st : Store) : UiResult × Store :=
  match findSprint st sprint_id with
  | none => (Except.error "Sprint+not+found", st)
  | some _ =>
    let clean_name := name.trim
    if clean_name = "" ∨ target_sessions_per_day ≤ 0 then
      (Except.error "Unable+to+create+habit", st)
    else
      let h : Habit :=
        { id := freshHabitId st
          sprint_id := sprint_id
          name := clean_name
          description := description.map (fun d => d.trim)
          target_sessions_per_day := target_sessions_per_day }
      (Except.ok (), insertHabit st h)

/-- Handler `delete_habit_ui` (`POST /ui/habits/{id}/delete`): deletes the
sessions referencing the habit, then the habit itself. -/
def deleteHabitUi (habit_id : Nat) (st : Store) : UiResult × Store :=
  match findHabit st habit_id with
  | none => (Except.error "Habit+not+found", st)
  | some _ =>
    (Except.ok (),
     { st with
       sessions := st.sessions.filter (fun s => ¬ s.habit_id == some habit_id)
       habits := st.habits.filter (fun h => ¬ h.id == habit_id) })

/-- The habit validation block of `plan_session_ui` (`app/routes/ui.py` lines
294-308): `habitId` is the integer parsed from the form field (`none` when
the field was empty or unparsable); the Python `if habit_id_value:`
truthiness test is the `v ≠ 0` guard; the check rejects when the habit is
unknown (negative ids find nothing) or belongs to a different sprint, and
otherwise yields the habit id to store (none when no habit was selected). -/
def uiHabitCheck (st : Store) (sprint_id : Nat) (habitId : Option Int) :
    Except String (Option Nat) :=
  match habitId with
  | some v =>
    if v ≠ 0 then
      match (if 0 ≤ v then findHabit st v.toNat else none) with
      | none => Except.error "Invalid+habit+selected"
      | some hb =>
        if hb.sprint_id ≠ sprint_id then Except.error "Invalid+habit+selected"
        else Except.ok (some hb.id)
    else Except.ok none
  | none => Except.ok none

/-- Handler `plan_session_ui` (`POST /ui/sprints/{id}/sessions/plan`,
`app/routes/ui.py` lines 275-340). -/
def planSessionUi (sprint_id : Nat) (habitId : Option Int)
    (planned_start : DateTime) (planned_duration_min : Int)
    (notes : Option String) (st : Store) : UiResult × Store :=
  match findSprint st sprint_id with
  | none => (Except.error "Unable+to+plan+session", st)
  | some _ =>
    if planned_duration_min ≤ 0 then
      (Except.error "Unable+to+plan+session", st)
    else
      match uiHabitCheck st sprint_id habitId with
      | Except.error msg => (Except.error msg, st)
      | Except.ok hid =>
        let s : Session :=
          { id := freshSessionId st
            sprint_id := sprint_id
            habit_id := hid
            planned_start := planned_start
            planned_duration_min := planned_duration_min
            actual_start := none
            actual_duration_min := none
            status := SessionStatus.planned
            notes := notes.map (fun n => n.trim)
            difficulty := none
            mood := none }
        (Except.ok (), insertSession st s)

/-- The field rewrite applied by `complete_session_ui`: status becomes done,
`actual_start` defaults to now when the stored value is absent, and
`actual_duration_min` defaults to the planned duration when absent. -/
def completeUiUpdate (now : DateTime) (t : Session) : Session :=
  { t with
    status := SessionStatus.done
    actual_start := some (t.actual_start.getD now)
    actual_duration_min := some (t.actual_duration_min.getD t.planned_duration_min) }

/-- Handler `complete_session_ui` (`POST /ui/sessions/{id}/complete`,
`app/routes/ui.py` lines 343-376); `now` stands for `datetime.utcnow()`. -/
def completeSessionUi (now : DateTime) (session_id : Nat) (st : Store) :
    UiResult × Store :=
  match findSession st session_id with
  | none => (Except.error "Unable+to+update+session", st)
  | some _ =>
    (Except.ok (), updateSessionById st session_id (completeUiUpdate now))

/-- Handler `skip_session_ui` (`POST /ui/sessions/{id}/skip`): sets the
status to skipped, touching nothing else. -/
def skipSessionUi (session_id : Nat) (st : Store) : UiResult × Store :=
  match findSession st session_id with
  | none => (Except.error "Unable+to+update+session", st)
  | some _ =>
    (Except.ok (),
     updateSessionById st session_id
       (fun t => { t with status := SessionStatus.skipped }))

/-- The six seeded session rows of `seed_demo` (`app/routes/demo.py` lines
64-82), parameterised on the assigned ids and the base timestamp: status is
done exactly when the loop offset mod 3 is nonzero, durations alternate
60/45, actuals and notes follow the same mod-3 split, difficulty alternates
4/3 and mood alternates 3/4. Day and hour offsets are encoded into the
opaque timestamp as minutes. -/
def demoSession (sprintId habitId : Nat) (base : Int) (firstId : Nat) (offset : Nat) :
    Session :=
  let isDone := offset % 3 ≠ 0
  { id := firstId + offset
    sprint_id := sprintId
    habit_id := some habitId
    planned_start := base + 1440 * offset
    planned_duration_min := if offset % 2 = 0 then 60 else 45
    actual_start := if isDone then some (base + 1440 * offset + 60 * (offset % 3)) else none
    actual_duration_min := if isDone then some 55 else none
    status := if isDone then SessionStatus.done else SessionStatus.skipped
    notes := if isDone then some "Felt productive" else some "Needed rest"
    difficulty := if offset % 2 = 0 then some 4 else some 3
    mood := some (3 + (offset % 2 : Int)) }

/-- Handler `seed_demo` (`POST /demo/seed`, `app/routes/demo.py` lines
25-103): wipe all three tables, then insert one active sprint, two habits
and six sessions attached to the first habit. `today` stands for
`date.today()` and `base` for 09:00 of that day. -/
def seedDemo (today : Int) (st : Store) : Store :=
  let st0 : Store := { st with sessions := [], habits := [], sprints := [] }
  let sprint : Sprint :=
    { id := freshSprintId st0
      title := "Deep Work Week"
      goal_text := "Solidify DS & Algorithms fundamentals"
      start_date := today
      end_date := today + 6
      status := SprintStatus.active }
  let st1 := insertSprint st0 sprint
  let habit1 : Habit :=
    { id := freshHabitId st1
      sprint_id := sprint.id
      name := "Morning math drills"
      description := some "80 minutes focused problem solving"
      target_sessions_per_day := 2 }
  let st2 := insertHabit st1 habit1
  let habit2 : Habit :=
    { id := freshHabitId st2
      sprint_id := sprint.id
      name := "Evening recap notes"
      description := some "Summaries of key takeaways"
      target_sessions_per_day := 1 }
  let st3 := insertHabit st2 habit2
  let base : Int := today * 1440 + 540
  let firstId := freshSessionId st3
  (List.range 6).foldl
    (fun acc offset => insertSession acc (demoSession sprint.id habit1.id base firstId offset))
    st3

/-- The exposed mutating operations, for stating properties quantified over
every handler. -/
inductive Op where
  | createSprint (p : SprintCreate)
  | updateSprintStatus (sid : Nat) (s : SprintStatus)
  | createHabit (sid : Nat) (p : HabitCreate)
  | createSession (sid : Nat) (p : SessionCreate)
  | completeSession (sid : Nat) (p : SessionCompleteRequest)
  | skipSession (sid : Nat) (p : Option SessionSkipRequest)
  | createSprintUi (title goal : String) (d1 d2 : Int)
  | createHabitUi (sid : Nat) (name : String) (descr : Option String) (target : Int)
  | deleteHabitUi (hid : Nat)
  | planSessionUi (sid : Nat) (hid : Option Int) (start dur : Int) (notes : Option String)
  | completeSessionUi (now : DateTime) (sid : Nat)
  | skipSessionUi (sid : Nat)
  | seedDemo (today : Int)

/-- The store produced by running one operation (the request's transaction
commits, or rolls back leaving the store unchanged). -/
def applyOp (op : Op) (st : Store) : Store :=
  match op with
  | Op.createSprint p => (createSprint p st).2
  | Op.updateSprintStatus sid s => (updateSprintStatus sid s st).2
  | Op.createHabit sid p => (createHabit sid p st).2
  | Op.createSession sid p => (createSession sid p st).2
  | Op.completeSession sid p => (completeSession sid p st).2
  | Op.skipSession sid p => (skipSession sid p st).2
  | Op.createSprintUi t g d1 d2 => (createSprintUi t g d1 d2 st).2
  | Op.createHabitUi sid n d tg => (createHabitUi sid n d tg st).2
  | Op.deleteHabitUi hid => (deleteHabitUi hid st).2
  | Op.planSessionUi sid hid s d n => (planSessionUi sid hid s d n st).2
  | Op.completeSessionUi now sid => (completeSessionUi now sid st).2
  | Op.skipSessionUi sid => (skipSessionUi sid st).2
  | Op.seedDemo today => seedDemo today st

instance {ε α : Type} [DecidableEq ε] [DecidableEq α] : DecidableEq (Except ε α) :=
  fun a b =>
  match a, b with
  | Except.error e1, Except.error e2 =>
    if h : e1 = e2 then isTrue (by rw [h]) else isFalse (by intro hc; cases hc; exact h rfl)
  | Except.error _, Except.ok _ => isFalse (by intro hc; cases hc)
  | Except.ok _, Except.error _ => isFalse (by intro hc; cases hc)
  | Except.ok v1, Except.ok v2 =>
    if h : v1 = v2 then isTrue (by rw [h]) else isFalse (by intro hc; cases hc; exact h rfl)

/-- A sprint with no habits and no sessions, for concrete instantiations. -/
def loneSprint : Sprint :=
  { id := 1, title := "S", goal_text := "g", start_date := 0, end_date := 1,
    status := SprintStatus.planned }

/-- A store holding only `loneSprint`. -/
def loneStore : Store := ⟨[loneSprint], [], []⟩

/-- The store produced by seeding the demo data into an empty store. -/
def demoStore : Store := seedDemo 0 emptyStore

/-- The statistics of the seeded sprint. -/
def demoStats : SprintStatsResult :=
  (sprintStats 1 demoStore).toOption.getD default

/-- A session payload whose body sprint id (2) differs from path id 1. -/
def mismatchSessionPayload : SessionCreate :=
  { sprint_id := 2, habit_id := none, planned_start := 0,
    planned_duration_min := 30, actual_start := none, actual_duration_min := none,
    status := SessionStatus.planned, notes := none, difficulty := none, mood := none }

/-- A habit payload whose body sprint id (2) differs from path id 1. -/
def mismatchHabitPayload : HabitCreate :=
  { sprint_id := 2, name := "H", description := none, target_sessions_per_day := 1 }

/-- Claim C1. For every existing sprint, the detailed statistics operation
(`GET /sprints/{id}/stats`) returns `completion_rate` equal to exactly
`done_sessions / total_sessions` when `total_sessions > 0`, and exactly 0
(not null: the result field is a plain rational) when `total_sessions = 0`;
for a sprint id that references no Sprint it signals NotFound instead. -/
theorem claim_C1 (st : Store) (sid : Nat) :
    (findSprint st sid = none → sprintStats sid st = Except.error sprintNotFound) ∧
    (∀ r : SprintStatsResult, sprintStats sid st = Except.ok r →
      (r.total_sessions ≠ 0 →
        r.completion_rate = (r.done_sessions : ℚ) / (r.total_sessions : ℚ)) ∧
      (r.total_sessions = 0 → r.completion_rate = 0)) := by
  constructor
  · intro h
    simp [sprintStats, h]
  · intro r hr
    cases hfind : findSprint st sid with
    | none => simp [sprintStats, hfind] at hr
    | some sp =>
      simp only [sprintStats, hfind] at hr
      cases hr
      constructor
      · intro hne
        simp [hne]
      · intro hz
        have hz' : sessionsOfSprint st sid = [] := List.length_eq_zero.mp hz
        simp [hz']

/-- Witness for C1: the empty store has no sprint 1 (NotFound path), and the
seeded store has one, with the computed rate equal to done over total. -/
theorem claim_C1_witness :
    sprintStats 1 emptyStore = Except.error sprintNotFound ∧
    demoStats.completion_rate = (demoStats.done_sessions : ℚ) / (demoStats.total_sessions : ℚ) :=
  ⟨(claim_C1 emptyStore 1).1 (by decide),
   ((claim_C1 demoStore 1).2 demoStats (by rfl)).1 (by decide)⟩

/-- Claim C3. In the detailed statistics, `avg_difficulty` and `avg_mood` are
averages taken only over done sessions: a planned or skipped session never
contributes its difficulty or mood to either average, each average is null
when no done session has the field populated, and `sprint_stats` reports
exactly these averages over the sprint's sessions. -/
theorem claim_C3 :
    (∀ (s : Session) (ss : List Session), s.status ≠ SessionStatus.done →
      avgDifficulty (s :: ss) = avgDifficulty ss ∧ avgMood (s :: ss) = avgMood ss) ∧
    (∀ ss : List Session,
      (∀ s ∈ ss, s.status = SessionStatus.done → s.difficulty = none) →
      avgDifficulty ss = none) ∧
    (∀ ss : List Session,
      (∀ s ∈ ss, s.status = SessionStatus.done → s.mood = none) →
      avgMood ss = none) ∧
    (∀ (st : Store) (sid : Nat) (r : SprintStatsResult),
      sprintStats sid st = Except.ok r →
      r.avg_difficulty = avgDifficulty (sessionsOfSprint st sid) ∧
      r.avg_mood = avgMood (sessionsOfSprint st sid)) := by
  refine ⟨?_, ?_, ?_, ?_⟩
  · intro s ss hnd
    constructor
    · simp [avgDifficulty, doneDifficulties, List.filterMap_cons, hnd]
    · simp [avgMood, doneMoods, List.filterMap_cons, hnd]
  · intro ss h
    have hnil : doneDifficulties ss = [] := by
      apply List.filterMap_eq_nil_iff.mpr
      intro s hs
      by_cases hd : s.status = SessionStatus.done
      · simp [hd, h s hs hd]
      · have hb : (s.status == SessionStatus.done) = false := by simpa using hd
        simp [hb]
    simp [avgDifficulty, hnil, avgInt]
  · intro ss h
    have hnil : doneMoods ss = [] := by
      apply List.filterMap_eq_nil_iff.mpr
      intro s hs
      by_cases hd : s.status = SessionStatus.done
      · simp [hd, h s hs hd]
      · have hb : (s.status == SessionStatus.done) = false := by simpa using hd
        simp [hb]
    simp [avgMood, hnil, avgInt]
  · intro st sid r hr
    cases hfind : findSprint st sid with
    | none => simp [sprintStats, hfind] at hr
    | some sp =>
      simp only [sprintStats, hfind] at hr
      cases hr
      exact ⟨rfl, rfl⟩

/-- A skipped session carrying a difficulty and a mood, for witnesses. -/
def skippedRich : Session :=
  { id := 1, sprint_id := 1, habit_id := none, planned_start := 0,
    planned_duration_min := 30, actual_start := none, actual_duration_min := none,
    status := SessionStatus.skipped, notes := none, difficulty := some 5,
    mood := some 5 }

/-- Witness for C3: a skipped session with a difficulty does not move the
averages, an all-skipped list has null averages, and the seeded sprint's
statistics carry exactly the list-level averages. -/
theorem claim_C3_witness :
    (avgDifficulty (skippedRich :: []) = avgDifficulty [] ∧
      avgMood (skippedRich :: []) = avgMood []) ∧
    avgDifficulty [skippedRich] = none ∧
    avgMood [skippedRich] = none ∧
    demoStats.avg_difficulty = avgDifficulty (sessionsOfSprint demoStore 1) :=
  ⟨claim_C3.1 skippedRich [] (by decide),
   claim_C3.2.1 [skippedRich] (by decide),
   claim_C3.2.2.1 [skippedRich] (by decide),
   (claim_C3.2.2.2 demoStore 1 demoStats (by rfl)).1⟩

/-- Counterexample to C5 as stated: with an empty store, a session-creation
request whose body sprint id (2) differs from the path sprint id (1) is
answered with 404 SPRINT_NOT_FOUND — not with the 400 SPRINT_ID_MISMATCH
conflict error the claim promises for every mismatching request — because
`create_session` resolves the path sprint before comparing the ids. -/
theorem claim_C5_counterexample :
    mismatchSessionPayload.sprint_id ≠ 1 ∧
    createSession 1 mismatchSessionPayload emptyStore =
      (Except.error sprintNotFound, emptyStore) ∧
    mismatchHabitPayload.sprint_id ≠ 1 ∧
    createHabit 1 mismatchHabitPayload emptyStore =
      (Except.error sprintNotFound, emptyStore) ∧
    sprintNotFound.code ≠ ErrorCode.SPRINT_ID_MISMATCH ∧
    sprintNotFound.httpStatus ≠ 400 := by
  decide

/-- Claim C5 as amended: for every session-creation or habit-creation request
whose body sprint id differs from the path sprint id, PROVIDED the path
sprint exists, the operation signals the 400 SPRINT_ID_MISMATCH conflict
error and persists no row (the returned store is the input store); when the
path sprint does not exist a 404 NotFound is signalled first, also with no
row persisted. -/
theorem claim_C5 (st : Store) (sid : Nat) (ps : SessionCreate) (ph : HabitCreate)
    (hex : (findSprint st sid).isSome)
    (hps : ps.sprint_id ≠ sid) (hph : ph.sprint_id ≠ sid) :
    createSession sid ps st = (Except.error sprintIdMismatch, st) ∧
    createHabit sid ph st = (Except.error sprintIdMismatch, st) := by
  obtain ⟨sp, hsp⟩ := Option.isSome_iff_exists.mp hex
  exact ⟨by simp [createSession, hsp, hps], by simp [createHabit, hsp, hph]⟩

/-- Witness for the amended C5: against a store holding sprint 1, both
mismatching creations yield the conflict error and leave the store as is. -/
theorem claim_C5_witness :
    createSession 1 mismatchSessionPayload loneStore =
      (Except.error sprintIdMismatch, loneStore) ∧
    createHabit 1 mismatchHabitPayload loneStore =
      (Except.error sprintIdMismatch, loneStore) :=
  claim_C5 loneStore 1 mismatchSessionPayload mismatchHabitPayload
    (by decide) (by decide) (by decide)

/-- Claim C8. Starting from an empty store, the demo seed creates one sprint
(id 1), 2 habits and 6 sessions whose status is done exactly when the
session index (position in insertion order) modulo 3 is nonzero, and the
detailed statistics of that sprint report total_sessions = 6,
done_sessions = 4, skipped_sessions = 2 and completion_rate = 4/6. -/
theorem claim_C8 :
    demoStore.sprints.map (fun sp => sp.id) = [1] ∧
    demoStore.habits.length = 2 ∧
    demoStore.sessions.length = 6 ∧
    (demoStore.sessions.enum.all
      (fun p => (p.2.status == SessionStatus.done) == decide (p.1 % 3 ≠ 0))) = true ∧
    (sprintStats 1 demoStore).map (fun r => r.total_sessions) = Except.ok 6 ∧
    (sprintStats 1 demoStore).map (fun r => r.done_sessions) = Except.ok 4 ∧
    (sprintStats 1 demoStore).map (fun r => r.skipped_sessions) = Except.ok 2 ∧
    (sprintStats 1 demoStore).map (fun r => r.completion_rate) =
      Except.ok ((4 : ℚ) / 6) := by
  refine ⟨by decide, by decide, by decide, by decide, by decide, by decide, by decide, ?_⟩
  have h1 : (sprintStats 1 demoStore).map (fun r => r.completion_rate) =
      Except.ok demoStats.completion_rate := rfl
  have h2 : demoStats.completion_rate = ((4 : ℕ) : ℚ) / ((6 : ℕ) : ℚ) := rfl
  rw [h1, h2]
  norm_num

/-- Claim C2. Every sprint with zero habits and zero sessions still appears
in the overview result (outer-join semantics), with zero counts, zero
planned minutes, and a null completion rate (no division by zero). -/
theorem claim_C2 (st : Store) (sp : Sprint)
    (hmem : sp ∈ st.sprints)
    (hh : ∀ h ∈ st.habits, h.sprint_id ≠ sp.id)
    (hs : ∀ s ∈ st.sessions, s.sprint_id ≠ sp.id) :
    overviewRow st sp ∈ listSprintOverview st ∧
    (overviewRow st sp).sprint_id = sp.id ∧
    (overviewRow st sp).habits_count = 0 ∧
    (overviewRow st sp).sessions_count = 0 ∧
    (overviewRow st sp).done_sessions = 0 ∧
    (overviewRow st sp).total_planned_minutes = 0 ∧
    (overviewRow st sp).completion_rate = none := by
  have hsess : sessionsOfSprint st sp.id = [] := by
    rw [sessionsOfSprint, List.filter_eq_nil_iff]
    intro s hsmem
    simpa using hs s hsmem
  have hhab : habitsOfSprint st sp.id = [] := by
    rw [habitsOfSprint, List.filter_eq_nil_iff]
    intro h hhm
    simpa using hh h hhm
  refine ⟨?_, rfl, ?_, ?_, ?_, ?_, ?_⟩
  · simp only [listSprintOverview]
    exact List.mem_map.mpr ⟨sp, List.mem_mergeSort.mpr hmem, rfl⟩
  · simp [overviewRow, hhab]
  · simp [overviewRow, hsess]
  · simp [overviewRow, hsess, doneCount]
  · simp [overviewRow, hsess, plannedSum]
  · simp [overviewRow, hsess]

/-- Witness for C2: in the store holding only the habit-less, session-less
sprint 1, that sprint's overview row is present with zeroes and a null rate. -/
theorem claim_C2_witness :
    overviewRow loneStore loneSprint ∈ listSprintOverview loneStore ∧
    (overviewRow loneStore loneSprint).sprint_id = loneSprint.id ∧
    (overviewRow loneStore loneSprint).habits_count = 0 ∧
    (overviewRow loneStore loneSprint).sessions_count = 0 ∧
    (overviewRow loneStore loneSprint).done_sessions = 0 ∧
    (overviewRow loneStore loneSprint).total_planned_minutes = 0 ∧
    (overviewRow loneStore loneSprint).completion_rate = none :=
  claim_C2 loneStore loneSprint (by decide) (by decide) (by decide)

/-- A done session with a recorded actual duration, for witnesses. -/
def doneSession : Session :=
  { id := 1, sprint_id := 1, habit_id := none, planned_start := 0,
    planned_duration_min := 50, actual_start := some 0,
    actual_duration_min := some 45, status := SessionStatus.done,
    notes := none, difficulty := none, mood := none }

/-- A store holding sprint 1 and one done session with an actual duration. -/
def actualStore : Store := ⟨[loneSprint], [], [doneSession]⟩

/-- Claim C4. In the overview, for every sprint, `total_actual_minutes` is
null when no session of that sprint has `actual_duration_min` set, and
otherwise equals the sum of `actual_duration_min` over exactly the sessions
that have it set (sessions without one are excluded, not counted as zero). -/
theorem claim_C4 (st : Store) (row : SprintOverviewRow)
    (hmem : row ∈ listSprintOverview st) :
    ((∀ s ∈ sessionsOfSprint st row.sprint_id, s.actual_duration_min = none) →
      row.total_actual_minutes = none) ∧
    ((∃ s ∈ sessionsOfSprint st row.sprint_id, s.actual_duration_min ≠ none) →
      row.total_actual_minutes =
        some (actualValues (sessionsOfSprint st row.sprint_id)).sum) := by
  simp only [listSprintOverview, List.mem_map] at hmem
  obtain ⟨sp, hsp, hrow⟩ := hmem
  subst hrow
  have hid : (overviewRow st sp).sprint_id = sp.id := rfl
  rw [hid]
  constructor
  · intro hall
    have hnil : actualValues (sessionsOfSprint st sp.id) = [] := by
      rw [actualValues, List.filterMap_eq_nil_iff]
      intro s hsmem
      exact hall s hsmem
    simp [overviewRow, actualSum, hnil]
  · intro hex
    have hne : actualValues (sessionsOfSprint st sp.id) ≠ [] := by
      intro hnil
      rw [actualValues, List.filterMap_eq_nil_iff] at hnil
      obtain ⟨s, hsmem, hsome⟩ := hex
      exact hsome (hnil s hsmem)
    simp [overviewRow, actualSum, hne]

/-- Witness for C4: the empty sprint's row reports a null actual total, and
the store with one 45-minute actual reports the sum over the recorded ones. -/
theorem claim_C4_witness :
    (overviewRow loneStore loneSprint).total_actual_minutes = none ∧
    (overviewRow actualStore loneSprint).total_actual_minutes =
      some (actualValues (sessionsOfSprint actualStore
        (overviewRow actualStore loneSprint).sprint_id)).sum :=
  ⟨(claim_C4 loneStore (overviewRow loneStore loneSprint)
      (List.mem_map.mpr ⟨loneSprint, List.mem_mergeSort.mpr (by decide), rfl⟩)).1
      (by decide),
   (claim_C4 actualStore (overviewRow actualStore loneSprint)
      (List.mem_map.mpr ⟨loneSprint, List.mem_mergeSort.mpr (by decide), rfl⟩)).2
      ⟨doneSession, by decide, by decide⟩⟩

/-- After rewriting the row with primary key `sid` through an id-preserving
update, looking that key up returns the updated row. -/
theorem findSession_update (st : Store) (sid : Nat) (f : Session → Session)
    (hf : ∀ t, (f t).id = t.id) (s : Session)
    (hfind : findSession st sid = some s) :
    findSession (updateSessionById st sid f) sid = some (f s) := by
  have hg : ∀ t : Session,
      ((if t.id == sid then f t else t).id == sid) = (t.id == sid) := by
    intro t
    by_cases h : t.id == sid
    · simp [h, hf]
    · simp [h]
  rw [findSession, updateSessionById]
  rw [List.find?_map]
  have hcomp : ((fun t : Session => t.id == sid) ∘
      (fun t => if t.id == sid then f t else t)) = (fun t : Session => t.id == sid) :=
    funext fun t => hg t
  rw [hcomp]
  have hbase : st.sessions.find? (fun t => t.id == sid) = some s := hfind
  rw [hbase]
  have hps := List.find?_some hbase
  have hid : s.id = sid := by simpa using hps
  simp [hid]

/-- The skip rewrite never touches any field except status (and notes when a
note is supplied), so its id is preserved. -/
theorem skipUpdate_id (p : Option SessionSkipRequest) (t : Session) :
    (skipUpdate p t).id = t.id := by
  cases p with
  | none => rfl
  | some q => cases hq : q.notes <;> simp [skipUpdate, hq]

/-- Claim C9. In the HTML-form completion path, completing an existing
session sets its status to done and, the caller supplying nothing there,
defaults a missing `actual_start` to the current time and a missing
`actual_duration_min` to the session's planned duration; the API-style
completion path takes both values from the request payload, whose
`actual_start` and `actual_duration_min` fields are required. -/
theorem claim_C9 (st : Store) (now : DateTime) (sid : Nat) (s : Session)
    (hfind : findSession st sid = some s) :
    ((s.actual_start = none ∧ s.actual_duration_min = none) →
      (completeSessionUi now sid st).1 = Except.ok () ∧
      findSession (completeSessionUi now sid st).2 sid =
        some { s with
          status := SessionStatus.done
          actual_start := some now
          actual_duration_min := some s.planned_duration_min }) ∧
    (∀ p : SessionCompleteRequest,
      (completeSession sid p st).1 = Except.ok (completeUpdate p s) ∧
      findSession (completeSession sid p st).2 sid = some (completeUpdate p s) ∧
      (completeUpdate p s).status = SessionStatus.done ∧
      (completeUpdate p s).actual_start = some p.actual_start ∧
      (completeUpdate p s).actual_duration_min = some p.actual_duration_min) := by
  constructor
  · rintro ⟨h1, h2⟩
    constructor
    · simp [completeSessionUi, hfind]
    · have hres : (completeSessionUi now sid st).2 =
          updateSessionById st sid (completeUiUpdate now) := by
        simp [completeSessionUi, hfind]
      rw [hres, findSession_update st sid (completeUiUpdate now) (fun t => rfl) s hfind]
      simp [completeUiUpdate, h1, h2]
  · intro p
    refine ⟨?_, ?_, rfl, rfl, rfl⟩
    · simp [completeSession, hfind]
    · have hres : (completeSession sid p st).2 =
          updateSessionById st sid (completeUpdate p) := by
        simp [completeSession, hfind]
      rw [hres]
      exact findSession_update st sid (completeUpdate p) (fun t => rfl) s hfind

/-- A stored planned session with empty actuals, for witnesses. -/
def planSession0 : Session :=
  { id := 1, sprint_id := 1, habit_id := none, planned_start := 0,
    planned_duration_min := 30, actual_start := none, actual_duration_min := none,
    status := SessionStatus.planned, notes := none, difficulty := none, mood := none }

/-- A store holding sprint 1 and the planned session 1. -/
def sessionStore : Store := ⟨[loneSprint], [], [planSession0]⟩

/-- A fully populated API completion payload, for witnesses. -/
def completePayload : SessionCompleteRequest :=
  { actual_start := 7, actual_duration_min := 25, notes := some "n",
    difficulty := some 2, mood := some 5 }

/-- Witness for C9: completing session 1 through the form path at time 5
defaults its actuals; the API path writes the payload values. -/
theorem claim_C9_witness :
    (completeSessionUi 5 1 sessionStore).1 = Except.ok () ∧
    findSession (completeSessionUi 5 1 sessionStore).2 1 =
      some { planSession0 with
        status := SessionStatus.done
        actual_start := some 5
        actual_duration_min := some planSession0.planned_duration_min } ∧
    (completeSession 1 completePayload sessionStore).1 =
      Except.ok (completeUpdate completePayload planSession0) :=
  ⟨((claim_C9 sessionStore 5 1 planSession0 (by decide)).1 ⟨rfl, rfl⟩).1,
   ((claim_C9 sessionStore 5 1 planSession0 (by decide)).1 ⟨rfl, rfl⟩).2,
   ((claim_C9 sessionStore 5 1 planSession0 (by decide)).2 completePayload).1⟩

/-- Claim C10. The API-style complete operation stores exactly the payload's
notes, difficulty and mood — null when omitted, overwriting previous values —
while the skip operation leaves the stored notes unchanged when the payload
carries no notes. -/
theorem claim_C10 (st : Store) (sid : Nat) (s : Session)
    (hfind : findSession st sid = some s) :
    (∀ p : SessionCompleteRequest,
      findSession (completeSession sid p st).2 sid = some (completeUpdate p s) ∧
      (completeUpdate p s).notes = p.notes ∧
      (completeUpdate p s).difficulty = p.difficulty ∧
      (completeUpdate p s).mood = p.mood) ∧
    (∀ p : Option SessionSkipRequest, p.bind (fun q => q.notes) = none →
      findSession (skipSession sid p st).2 sid =
        some { s with status := SessionStatus.skipped } ∧
      ({ s with status := SessionStatus.skipped } : Session).notes = s.notes) := by
  constructor
  · intro p
    refine ⟨?_, rfl, rfl, rfl⟩
    have hres : (completeSession sid p st).2 =
        updateSessionById st sid (completeUpdate p) := by
      simp [completeSession, hfind]
    rw [hres]
    exact findSession_update st sid (completeUpdate p) (fun t => rfl) s hfind
  · intro p hp
    have hskip : skipUpdate p s = { s with status := SessionStatus.skipped } := by
      cases p with
      | none => rfl
      | some q =>
        have hq : q.notes = none := by simpa using hp
        simp [skipUpdate, hq]
    refine ⟨?_, rfl⟩
    have hres : (skipSession sid p st).2 =
        updateSessionById st sid (skipUpdate p) := by
      simp [skipSession, hfind]
    rw [hres, findSession_update st sid (skipUpdate p) (skipUpdate_id p) s hfind, hskip]

/-- A stored session carrying old notes, for witnesses. -/
def notedSession : Session :=
  { planSession0 with notes := some "old" }

/-- A store holding sprint 1 and the noted session 1. -/
def skipStore : Store := ⟨[loneSprint], [], [notedSession]⟩

/-- Witness for C10: the API complete overwrites the old notes with the
payload's, and a payload-less skip keeps them. -/
theorem claim_C10_witness :
    findSession (completeSession 1 completePayload skipStore).2 1 =
      some (completeUpdate completePayload notedSession) ∧
    findSession (skipSession 1 none skipStore).2 1 =
      some { notedSession with status := SessionStatus.skipped } :=
  ⟨((claim_C10 skipStore 1 notedSession (by decide)).1 completePayload).1,
   ((claim_C10 skipStore 1 notedSession (by decide)).2 none rfl).1⟩

/-- A second sprint, to host a habit foreign to sprint 1. -/
def otherSprint : Sprint :=
  { id := 2, title := "T", goal_text := "h", start_date := 0, end_date := 1,
    status := SprintStatus.planned }

/-- A habit that belongs to sprint 2, not sprint 1. -/
def foreignHabit : Habit :=
  { id := 1, sprint_id := 2, name := "H", description := none,
    target_sessions_per_day := 1 }

/-- Two sprints and a habit of sprint 2; no sessions. -/
def crossStore : Store := ⟨[loneSprint, otherSprint], [foreignHabit], []⟩

/-- A session payload for sprint 1 that references habit 1 (of sprint 2). -/
def crossSessionPayload : SessionCreate :=
  { sprint_id := 1, habit_id := some 1, planned_start := 0,
    planned_duration_min := 30, actual_start := none, actual_duration_min := none,
    status := SessionStatus.planned, notes := none, difficulty := none, mood := none }

/-- The session row the API persists for `crossSessionPayload`. -/
def crossCreatedSession : Session :=
  { id := 1, sprint_id := 1, habit_id := some 1, planned_start := 0,
    planned_duration_min := 30, actual_start := none, actual_duration_min := none,
    status := SessionStatus.planned, notes := none, difficulty := none, mood := none }

/-- Counterexample to C6 as stated: the API `create_session` performs no
habit-to-sprint check. Habit 1 belongs to sprint 2, yet a session-creation
request for sprint 1 carrying `habit_id = 1` succeeds and persists a session
of sprint 1 referencing a habit of sprint 2 — so not every session-creation
request with a foreign habit is rejected, and the stored-session invariant
fails for API-created rows. -/
theorem claim_C6_counterexample :
    (findHabit crossStore 1).map (fun h => h.sprint_id) = some 2 ∧
    crossSessionPayload.sprint_id = 1 ∧
    crossSessionPayload.habit_id = some 1 ∧
    (createSession 1 crossSessionPayload crossStore).1 =
      Except.ok crossCreatedSession ∧
    crossCreatedSession ∈ (createSession 1 crossSessionPayload crossStore).2.sessions ∧
    crossCreatedSession.habit_id = some 1 ∧
    crossCreatedSession.sprint_id = 1 := by
  decide

/-- Claim C6 as amended: only the HTML-form planning path enforces the
habit-to-sprint consistency check. There, when the sprint exists, the
duration is positive and the selected habit id resolves to a habit of a
different sprint, the request is rejected with an error redirect and no
session row is persisted (the store is returned unchanged); the API-style
`create_session` performs no such check (see the counterexample), so the
invariant is only guaranteed for sessions created through the form path. -/
theorem claim_C6 (st : Store) (sid : Nat) (v : Int) (start dur : Int)
    (notes : Option String) (hb : Habit)
    (hsp : (findSprint st sid).isSome) (hdur : 0 < dur) (hv : 0 < v)
    (hfound : findHabit st v.toNat = some hb) (hbad : hb.sprint_id ≠ sid) :
    planSessionUi sid (some v) start dur notes st =
      (Except.error "Invalid+habit+selected", st) := by
  obtain ⟨sp, hspe⟩ := Option.isSome_iff_exists.mp hsp
  have hdur' : ¬ dur ≤ 0 := not_le.mpr hdur
  have hv' : v ≠ 0 := ne_of_gt hv
  have hle : (0 : Int) ≤ v := le_of_lt hv
  have hck : uiHabitCheck st sid (some v) = Except.error "Invalid+habit+selected" := by
    simp [uiHabitCheck, hv', hle, hfound, hbad]
  simp [planSessionUi, hspe, hdur', hck]

/-- Witness for the amended C6: planning a session in sprint 1 while
selecting habit 1 (which belongs to sprint 2) is rejected and the store is
untouched. -/
theorem claim_C6_witness :
    planSessionUi 1 (some 1) 0 30 none crossStore =
      (Except.error "Invalid+habit+selected", crossStore) :=
  claim_C6 crossStore 1 1 0 30 none foreignHabit
    (by decide) (by decide) (by decide) (by decide) (by decide)

/-- Every element of a list is bounded by the fold of max over it. -/
theorem le_foldr_max (ids : List Nat) (a : Nat) (ha : a ∈ ids) :
    a ≤ ids.foldr max 0 := by
  induction ids with
  | nil => cases ha
  | cons x xs ih =>
    rcases List.mem_cons.mp ha with h | h
    · rw [h]
      exact le_max_left _ _
    · exact le_trans (ih h) (le_max_right _ _)

/-- A used id is strictly below the freshly assigned one. -/
theorem lt_freshId (ids : List Nat) (a : Nat) (ha : a ∈ ids) : a < freshId ids :=
  Nat.lt_succ_of_le (le_foldr_max ids a ha)

/-- A stored session's id is strictly below the next session id. -/
theorem session_id_lt_fresh (st : Store) (s : Session) (hs : s ∈ st.sessions) :
    s.id < freshSessionId st :=
  lt_freshId _ _ (List.mem_map_of_mem (fun x => x.id) hs)

/-- With distinct primary keys, two stored sessions with equal ids are equal. -/
theorem eq_of_mem_nodup_id (l : List Session)
    (hnd : (l.map (fun x => x.id)).Nodup) (s t : Session)
    (hs : s ∈ l) (ht : t ∈ l) (hid : t.id = s.id) : t = s := by
  induction l with
  | nil => cases hs
  | cons x xs ih =>
    rw [List.map_cons, List.nodup_cons] at hnd
    obtain ⟨hx, hnd'⟩ := hnd
    rcases List.mem_cons.mp hs with h1 | h1 <;> rcases List.mem_cons.mp ht with h2 | h2
    · rw [h1, h2]
    · rw [h1] at hid
      exact absurd (hid ▸ List.mem_map_of_mem (fun x => x.id) h2) hx
    · rw [h2] at hid
      exact absurd (hid ▸ List.mem_map_of_mem (fun x => x.id) h1) hx
    · exact ih hnd' h1 h2

/-- A terminal stored session that reappears untouched is still not planned. -/
theorem old_not_planned (l : List Session)
    (hnd : (l.map (fun x => x.id)).Nodup) (s t : Session) (hs : s ∈ l)
    (hterm : s.status = SessionStatus.done ∨ s.status = SessionStatus.skipped)
    (ht : t ∈ l) (hid : t.id = s.id) : t.status ≠ SessionStatus.planned := by
  have he : t = s := eq_of_mem_nodup_id l hnd s t hs ht hid
  rw [he]
  rcases hterm with h | h <;> simp [h]

/-- Rewriting one row through an id-preserving, never-planned update keeps
every row with a terminal session's id away from planned. -/
theorem update_not_planned (st : Store) (sid : Nat) (f : Session → Session)
    (hnd : (st.sessions.map (fun x => x.id)).Nodup)
    (hfst : ∀ u, (f u).status ≠ SessionStatus.planned)
    (s t : Session) (hs : s ∈ st.sessions)
    (hterm : s.status = SessionStatus.done ∨ s.status = SessionStatus.skipped)
    (ht : t ∈ (updateSessionById st sid f).sessions) (hid : t.id = s.id) :
    t.status ≠ SessionStatus.planned := by
  have ht' : t ∈ st.sessions.map (fun u => if u.id == sid then f u else u) := ht
  obtain ⟨u, hu, hut⟩ := List.mem_map.mp ht'
  by_cases hc : (u.id == sid)
  · rw [if_pos hc] at hut
    rw [← hut]
    exact hfst u
  · rw [if_neg hc] at hut
    rw [← hut]
    rw [← hut] at hid
    exact old_not_planned st.sessions hnd s u hs hterm hu hid

/-- Appending a freshly keyed row cannot make a terminal session planned:
the new row's id differs from every stored one. -/
theorem insert_not_planned (st : Store) (new : Session)
    (hnd : (st.sessions.map (fun x => x.id)).Nodup)
    (hnew : new.id = freshSessionId st)
    (s t : Session) (hs : s ∈ st.sessions)
    (hterm : s.status = SessionStatus.done ∨ s.status = SessionStatus.skipped)
    (ht : t ∈ (insertSession st new).sessions) (hid : t.id = s.id) :
    t.status ≠ SessionStatus.planned := by
  have ht' : t ∈ st.sessions ++ [new] := ht
  rcases List.mem_append.mp ht' with h | h
  · exact old_not_planned st.sessions hnd s t hs hterm h hid
  · have he : t = new := by simpa using h
    have hlt := session_id_lt_fresh st s hs
    rw [← hid, he, hnew] at hlt
    exact absurd hlt (lt_irrefl _)

/-- The skip rewrite always sets the status to skipped. -/
theorem skipUpdate_status (p : Option SessionSkipRequest) (t : Session) :
    (skipUpdate p t).status = SessionStatus.skipped := by
  cases p with
  | none => rfl
  | some q => cases hq : q.notes <;> simp [skipUpdate, hq]

/-- The seeded sessions, listed: statuses alternate by the mod-3 rule. -/
theorem seedDemo_sessions (today : Int) (st : Store) :
    (seedDemo today st).sessions =
      [demoSession 1 1 (today * 1440 + 540) 1 0,
       demoSession 1 1 (today * 1440 + 540) 1 1,
       demoSession 1 1 (today * 1440 + 540) 1 2,
       demoSession 1 1 (today * 1440 + 540) 1 3,
       demoSession 1 1 (today * 1440 + 540) 1 4,
       demoSession 1 1 (today * 1440 + 540) 1 5] := rfl

/-- No session written by the demo seed has status planned. -/
theorem seedDemo_not_planned (today : Int) (st : Store) (t : Session)
    (ht : t ∈ (seedDemo today st).sessions) :
    t.status ≠ SessionStatus.planned := by
  rw [seedDemo_sessions] at ht
  simp only [List.mem_cons, List.not_mem_nil, or_false] at ht
  rcases ht with h | h | h | h | h | h <;> rw [h] <;> simp [demoSession]

/-- Claim C7. The done and skipped states of a session are terminal: for
every exposed mutating operation and every stored session whose status is
done or skipped, no session with that id in the resulting store has status
planned (stored primary keys being distinct). -/
theorem claim_C7 (op : Op) (st : Store) (s t : Session)
    (hnd : (st.sessions.map (fun x => x.id)).Nodup)
    (hs : s ∈ st.sessions)
    (hterm : s.status = SessionStatus.done ∨ s.status = SessionStatus.skipped)
    (ht : t ∈ (applyOp op st).sessions) (hid : t.id = s.id) :
    t.status ≠ SessionStatus.planned := by
  cases op with
  | createSprint p =>
    exact old_not_planned st.sessions hnd s t hs hterm ht hid
  | updateSprintStatus sid newStatus =>
    cases hfs : findSprint st sid with
    | none =>
      simp only [applyOp, updateSprintStatus, hfs] at ht
      exact old_not_planned st.sessions hnd s t hs hterm ht hid
    | some sp =>
      simp only [applyOp, updateSprintStatus, hfs] at ht
      exact old_not_planned st.sessions hnd s t hs hterm ht hid
  | createHabit sid p =>
    cases hfs : findSprint st sid with
    | none =>
      simp only [applyOp, createHabit, hfs] at ht
      exact old_not_planned st.sessions hnd s t hs hterm ht hid
    | some sp =>
      by_cases hmis : p.sprint_id ≠ sid
      · simp only [applyOp, createHabit, hfs, if_pos hmis] at ht
        exact old_not_planned st.sessions hnd s t hs hterm ht hid
      · simp only [applyOp, createHabit, hfs, if_neg hmis] at ht
        exact old_not_planned st.sessions hnd s t hs hterm ht hid
  | createSession sid p =>
    cases hfs : findSprint st sid with
    | none =>
      simp only [applyOp, createSession, hfs] at ht
      exact old_not_planned st.sessions hnd s t hs hterm ht hid
    | some sp =>
      by_cases hmis : p.sprint_id ≠ sid
      · simp only [applyOp, createSession, hfs, if_pos hmis] at ht
        exact old_not_planned st.sessions hnd s t hs hterm ht hid
      · simp only [applyOp, createSession, hfs, if_neg hmis] at ht
        exact insert_not_planned st _ hnd rfl s t hs hterm ht hid
  | completeSession sid p =>
    cases hfs : findSession st sid with
    | none =>
      simp only [applyOp, completeSession, hfs] at ht
      exact old_not_planned st.sessions hnd s t hs hterm ht hid
    | some u =>
      simp only [applyOp, completeSession, hfs] at ht
      exact update_not_planned st sid (completeUpdate p) hnd
        (fun u => by simp [completeUpdate]) s t hs hterm ht hid
  | skipSession sid p =>
    cases hfs : findSession st sid with
    | none =>
      simp only [applyOp, skipSession, hfs] at ht
      exact old_not_planned st.sessions hnd s t hs hterm ht hid
    | some u =>
      simp only [applyOp, skipSession, hfs] at ht
      exact update_not_planned st sid (skipUpdate p) hnd
        (fun u => by rw [skipUpdate_status p u]; simp) s t hs hterm ht hid
  | createSprintUi title goal d1 d2 =>
    exact old_not_planned st.sessions hnd s t hs hterm ht hid
  | createHabitUi sid name descr target =>
    cases hfs : findSprint st sid with
    | none =>
      simp only [applyOp, createHabitUi, hfs] at ht
      exact old_not_planned st.sessions hnd s t hs hterm ht hid
    | some sp =>
      by_cases hcond : name.trim = "" ∨ target ≤ 0
      · simp only [applyOp, createHabitUi, hfs, if_pos hcond] at ht
        exact old_not_planned st.sessions hnd s t hs hterm ht hid
      · simp only [applyOp, createHabitUi, hfs, if_neg hcond] at ht
        exact old_not_planned st.sessions hnd s t hs hterm ht hid
  | deleteHabitUi hid' =>
    cases hf : findHabit st hid' with
    | none =>
      simp only [applyOp, deleteHabitUi, hf] at ht
      exact old_not_planned st.sessions hnd s t hs hterm ht hid
    | some hb =>
      simp only [applyOp, deleteHabitUi, hf] at ht
      have ht' : t ∈ st.sessions.filter (fun x => ¬ x.habit_id == some hid') := ht
      exact old_not_planned st.sessions hnd s t hs hterm
        (List.mem_of_mem_filter ht') hid
  | planSessionUi sid hid0 start dur notes =>
    cases hfs : findSprint st sid with
    | none =>
      simp only [applyOp, planSessionUi, hfs] at ht
      exact old_not_planned st.sessions hnd s t hs hterm ht hid
    | some sp =>
      by_cases hdur : dur ≤ 0
      · simp only [applyOp, planSessionUi, hfs, if_pos hdur] at ht
        exact old_not_planned st.sessions hnd s t hs hterm ht hid
      · cases hck : uiHabitCheck st sid hid0 with
        | error msg =>
          simp only [applyOp, planSessionUi, hfs, if_neg hdur, hck] at ht
          exact old_not_planned st.sessions hnd s t hs hterm ht hid
        | ok hv =>
          simp only [applyOp, planSessionUi, hfs, if_neg hdur, hck] at ht
          exact insert_not_planned st _ hnd rfl s t hs hterm ht hid
  | completeSessionUi now sid =>
    cases hfs : findSession st sid with
    | none =>
      simp only [applyOp, completeSessionUi, hfs] at ht
      exact old_not_planned st.sessions hnd s t hs hterm ht hid
    | some u =>
      simp only [applyOp, completeSessionUi, hfs] at ht
      exact update_not_planned st sid (completeUiUpdate now) hnd
        (fun u => by simp [completeUiUpdate]) s t hs hterm ht hid
  | skipSessionUi sid =>
    cases hfs : findSession st sid with
    | none =>
      simp only [applyOp, skipSessionUi, hfs] at ht
      exact old_not_planned st.sessions hnd s t hs hterm ht hid
    | some u =>
      simp only [applyOp, skipSessionUi, hfs] at ht
      exact update_not_planned st sid
        (fun x => { x with status := SessionStatus.skipped }) hnd
        (fun u => by simp) s t hs hterm ht hid
  | seedDemo today =>
    exact seedDemo_not_planned today st t ht

/-- Witness for C7: skipping the already-done session 1 through the form
path leaves a session that is not planned. -/
theorem claim_C7_witness :
    ({ doneSession with status := SessionStatus.skipped } : Session).status ≠
      SessionStatus.planned :=
  claim_C7 (Op.skipSessionUi 1) actualStore doneSession
    { doneSession with status := SessionStatus.skipped }
    (by decide) (by decide) (Or.inl rfl) (by decide) rfl
